import Mathlib

/-!
Verification of `src/Travel/make_thumbs.py` (batch video-thumbnail generator).

The Python program is shallowly embedded as follows.

* The outside world is an `Env` record: the outcome of each `ffprobe` duration
  query (`probeRaw`, `none` = any exception in the probe's `try` block), the
  filesystem existence test used by the skip check (`pathExists`), the outcome
  of launching an external process (`runExit`: `Except.error` = an exception
  while constructing or launching the process, `Except.ok c` = the process ran
  and exited with status `c`), and the name handed out by
  `tempfile.NamedTemporaryFile` (`tmpName`).
* Every embedded function returns its value paired with the list of external
  `Effect`s it performs (probe calls, process executions, temporary-file writes
  and removals), so that "makes no external call" is statable.
* Python floats are modelled as `ℚ`; Python's `//` is `Int.fdiv` (floor
  division), `math.ceil` is `Int.ceil`.
* A Python exception that escapes a function is modelled as `Except.error`
  carrying the exception message; a function whose Lean type is not wrapped in
  `Except` cannot propagate an exception, mirroring a Python function all of
  whose bodies are wrapped in `try/except`.
* `str.strip`/`int()` inside tile parsing are modelled for ASCII whitespace,
  an optional sign and ASCII decimal digits (Python's digit-grouping
  underscores and non-ASCII digits are not modelled); `str.lower` is modelled
  on ASCII letters.  None of the claims depends on these exotic inputs.
* The driver loop (`main`) consumes futures with `as_completed`, whose order
  is nondeterministic; which results are printed before an abort depends on
  that order, but whether the run aborts, the multiset of results and the
  final counters do not.  `main_run` models exactly those order-independent
  observables, collecting in submission order.
-/

namespace MakeThumbs

/-- Externally visible events performed by the program: a duration probe, an
execution of a built command, a temporary title-file write, and a
temporary-file removal. -/
inductive Effect where
  | probe (path : String)
  | exec (cmd : List String)
  | writeTmp (name content : String)
  | removeTmp (name : String)
deriving DecidableEq, Repr

/-- The outside world as seen by the program. -/
structure Env where
  probeRaw : String → Option ℚ
  pathExists : String → Bool
  runExit : List String → Except String Int
  tmpName : String

/-- Recognized video extensions, from line 14 of the source (a Python set;
modelled as a list, membership is the same). -/
def VIDEO_EXTS : List String := [".mp4", ".mov", ".mkv", ".avi", ".m4v", ".webm"]

/-- Default font path constant from line 15 of the source. -/
def DEFAULT_FONT_MAC : String := "/Library/Fonts/Arial Bold.ttf"

/-- Characters stripped by Python's `str.strip()` (ASCII whitespace). -/
def isPySpace (c : Char) : Bool :=
  c = ' ' || c = '\t' || c = '\n' || c = '\r' || c = '\x0b' || c = '\x0c'

/-- Value of an ASCII decimal digit. -/
def digitVal (c : Char) : Option Nat :=
  if '0' ≤ c ∧ c ≤ '9' then some (c.toNat - 48) else none

/-- Accumulates the value of a digit string; fails on the first non-digit. -/
def digitsAcc : Nat → List Char → Option Nat
  | acc, [] => some acc
  | acc, c :: cs =>
    match digitVal c with
    | none => none
    | some d => digitsAcc (10 * acc + d) cs

/-- Value of a nonempty all-digit string. -/
def pyIntDigits (cs : List Char) : Option Nat :=
  if cs.isEmpty then none else digitsAcc 0 cs

/-- Models Python's `int(str)`: strip surrounding whitespace, optional single
sign, then a nonempty run of decimal digits; `none` models the `ValueError`
that `int` raises on anything else. -/
def pyInt (cs : List Char) : Option Int :=
  let t := ((cs.dropWhile isPySpace).reverse.dropWhile isPySpace).reverse
  match t with
  | '+' :: ds => (pyIntDigits ds).map (fun n => (n : Int))
  | '-' :: ds => (pyIntDigits ds).map (fun n => -(n : Int))
  | ds => (pyIntDigits ds).map (fun n => (n : Int))

/-- Splits a character list on a separator character, like Python's
`str.split(sep)` for a one-character separator: `"".split` gives `[""]`, and
every occurrence of the separator starts a new (possibly empty) chunk. -/
def splitOnChar (sep : Char) : List Char → List (List Char)
  | [] => [[]]
  | c :: cs =>
    match splitOnChar sep cs with
    | [] => if c = sep then [[], []] else [[c]]
    | g :: gs => if c = sep then [] :: g :: gs else (c :: g) :: gs

/-- Models `tile.lower().split("x")` followed by tuple unpacking, `int()` and
`assert cols > 0 and rows > 0` from `build_grid_cmd` (lines 107-112): any
failing step lands in the `except` branch, modelled by `none`. -/
def parse_tile (tile : String) : Option (Int × Int) :=
  match splitOnChar 'x' (tile.toList.map Char.toLower) with
  | [c, r] =>
    match pyInt c, pyInt r with
    | some cols, some rows =>
      if 0 < cols ∧ 0 < rows then some (cols, rows) else none
    | _, _ => none
  | _ => none

/-- Final path component, like `pathlib.PurePath.name`. -/
def pyName (p : String) : String :=
  String.mk ((p.toList.reverse.takeWhile (fun c => c ≠ '/')).reverse)

/-- Splits a file name at its last dot per CPython's rule for
`PurePath.stem`/`PurePath.suffix`: the dot must be neither the first nor the
last character of the name; otherwise there is no suffix. -/
def lastDotSplit (name : List Char) : Option (List Char × List Char) :=
  let tl := name.reverse.takeWhile (fun c => c ≠ '.')
  if tl.length = name.length then none
  else
    let i := name.length - 1 - tl.length
    if 0 < i ∧ tl.length ≠ 0 then some (name.take i, name.drop i) else none

/-- Models `pathlib.Path.stem` of a path. -/
def pyStem (p : String) : String :=
  match lastDotSplit (pyName p).toList with
  | some st => String.mk st.1
  | none => pyName p

/-- Models `pathlib.Path.suffix` of a path. -/
def pySuffix (p : String) : String :=
  match lastDotSplit (pyName p).toList with
  | some st => String.mk st.2
  | none => ""

/-- Models `str.lower()` (ASCII letters). -/
def strLower (s : String) : String :=
  String.mk (s.toList.map Char.toLower)

/-- Embeds `list_videos` (lines 24-27): keep the regular files whose suffix,
lowercased, is a recognized video extension, and sort.  A directory is a list
of entries (name, regular-file flag); Python sorts `Path` objects of one
directory, which orders them by name. -/
structure DirEntry where
  name : String
  isFile : Bool
deriving DecidableEq, Repr

def list_videos (entries : List DirEntry) : List String :=
  List.insertionSort (fun a b => a ≤ b)
    ((entries.filter
        (fun p => p.isFile && decide (strLower (pySuffix p.name) ∈ VIDEO_EXTS))).map
      DirEntry.name)

/-- Embeds `ffprobe_duration` (lines 30-39): on any exception in the probe
(`probeRaw = none`: tool missing, non-video input, malformed output, non-zero
exit) the function returns `0.0`; on success it returns
`max(0.0, float(out))`.  The function's return type is a plain `ℚ`, so no
error can propagate out of it. -/
def ffprobe_duration (env : Env) (path : String) : ℚ × List Effect :=
  (match env.probeRaw path with
   | none => 0
   | some x => max 0 x,
   [Effect.probe path])

/-- Embeds `run` (lines 42-50): success iff the process exits with status 0;
a non-zero exit produces the `Command failed` diagnostic with the exit code
and the space-joined command line; an exception constructing or launching the
process produces the `Error:` diagnostic.  The return type is not wrapped in
`Except`, so no exception escapes. -/
def run (env : Env) (cmd : List String) : (Bool × String) × List Effect :=
  (match env.runExit cmd with
   | Except.ok c =>
     if c = 0 then (true, "")
     else (false, "Command failed (" ++ toString c ++ "): " ++ String.intercalate " " cmd)
   | Except.error e => (false, "Error: " ++ e),
   [Effect.exec cmd])

/-- Embeds `title_from_filename` (lines 53-55). -/
def title_from_filename (path : String) : String :=
  String.mk ((pyStem path).toList.map (fun c => if c = '_' then ' ' else c))

/-- Embeds `build_smart_cmd` (lines 58-63). -/
def build_smart_cmd (inp out : String) (width height : Int) : List String :=
  ["ffmpeg", "-y", "-v", "error", "-i", inp,
   "-vf", "thumbnail=600,scale=" ++ toString width ++ ":" ++ toString height,
   "-frames:v", "1", out]

/-- Renders a rational with three decimals, modelling Python's `f"{ts:.3f}"`
at millisecond precision (Python rounds the underlying binary float half to
even; the claims do not depend on the rounding of ties). -/
def pad3 (n : Nat) : String :=
  if n < 10 then "00" ++ toString n
  else if n < 100 then "0" ++ toString n
  else toString n

def fmt3 (q : ℚ) : String :=
  let m : Int := round (q * 1000)
  let sgn := if m < 0 then "-" else ""
  sgn ++ toString (m.natAbs / 1000) ++ "." ++ pad3 (m.natAbs % 1000)

/-- Embeds `build_middle_cmd` (lines 66-72): probe the duration, seek to
`max(0.0, dur * percent)` when `dur > 0` and to `0.0` otherwise. -/
def build_middle_cmd (env : Env) (inp out : String) (width height : Int)
    (percent : ℚ) : List String × List Effect :=
  let pd := ffprobe_duration env inp
  let dur := pd.1
  let ts : ℚ := if dur > 0 then max 0 (dur * percent) else 0
  (["ffmpeg", "-y", "-v", "error", "-ss", fmt3 ts, "-i", inp,
    "-frames:v", "1",
    "-vf", "scale=" ++ toString width ++ ":" ++ toString height, out],
   pd.2)

/-- Embeds `build_styled_cmd` (lines 75-102): write the title to a temporary
file, build the filter chain, add the logo overlay variant when a logo is
supplied, and return the command together with the temporary file's path. -/
def build_styled_cmd (env : Env) (inp out : String) (width height canvas_h : Int)
    (font : String) (logo : Option String) (title : String) :
    (List String × String) × List Effect :=
  let tmp := env.tmpName
  let vf_common :=
    "thumbnail=600,scale=" ++ toString width ++ ":" ++ toString height ++
    ",pad=" ++ toString width ++ ":" ++ toString canvas_h ++
    ":(ow-iw)/2:(oh-ih)/2:color=black" ++
    ",drawbox=x=0:y=oh-140:w=ow:h=140:color=black@0.55:t=fill" ++
    ",drawtext=fontfile='" ++ font ++ "':textfile='" ++ tmp ++ "':x=40:y=h-70:" ++
    "fontsize=48:fontcolor=white:borderw=2:bordercolor=black@0.9"
  let cmd :=
    match logo with
    | some lg =>
      ["ffmpeg", "-y", "-v", "error", "-i", inp, "-i", lg,
       "-filter_complex", "[0:v]" ++ vf_common ++ "[bg];[bg][1:v]overlay=20:20",
       "-frames:v", "1", out]
    | none =>
      ["ffmpeg", "-y", "-v", "error", "-i", inp,
       "-vf", vf_common, "-frames:v", "1", out]
  ((cmd, tmp), [Effect.writeTmp tmp title])

/-- Embeds `build_grid_cmd` (lines 105-125).  A malformed tile spec raises
`ValueError` (modelled as `Except.error`) before any external call (empty
effect list); a valid one computes `total = cols * rows`,
`cellw = max(1, width // cols)`, probes the duration, and picks
`fps = 1` when the duration is `≤ 0`, else `max(1, ceil(total / dur))`. -/
def build_grid_cmd (env : Env) (inp out : String) (width : Int) (tile : String) :
    Except String (List String) × List Effect :=
  match parse_tile tile with
  | none => (Except.error ("Неверный --tile: " ++ tile), [])
  | some cr =>
    let cols := cr.1
    let rows := cr.2
    let total := cols * rows
    let cellw := max 1 (Int.fdiv width cols)
    let pd := ffprobe_duration env inp
    let dur := pd.1
    let fps : Int := if dur ≤ 0 then 1 else max 1 ⌈(total : ℚ) / dur⌉
    (Except.ok ["ffmpeg", "-y", "-v", "error", "-i", inp,
       "-vf", "fps=" ++ toString fps ++ ",scale=" ++ toString cellw ++
              ":-2,tile=" ++ toString cols ++ "x" ++ toString rows,
       "-frames:v", toString total, out],
     pd.2)

/-- Output path derivation of `process_one` (lines 130-134): input stem plus
`.jpg`, with a `_grid` suffix in grid mode (`Path./` modelled as posix
join). -/
def out_path (path outdir mode : String) : String :=
  let base := pyStem path
  if mode = "grid" then outdir ++ "/" ++ base ++ "_grid.jpg"
  else outdir ++ "/" ++ base ++ ".jpg"

/-- Embeds `process_one` (lines 128-167).  The result is
`Except.ok (ok, path, msg)` when the function returns normally and
`Except.error e` when an exception escapes it — which happens exactly on the
grid branch, whose `build_grid_cmd` call is not wrapped in any handler.  The
styled branch's `try/finally` always removes the temporary title file. -/
def process_one (env : Env) (path outdir mode : String) (width height : Int)
    (percent : ℚ) (canvas_h : Int) (font : String) (logo : Option String)
    (tile : String) : Except String (Bool × String × String) × List Effect :=
  let op := out_path path outdir mode
  if env.pathExists op then
    (Except.ok (true, path, "skip (exists)"), [])
  else if mode = "smart" then
    let cmd := build_smart_cmd path op width height
    let r := run env cmd
    (Except.ok (r.1.1, path, r.1.2), r.2)
  else if mode = "middle" then
    let bc := build_middle_cmd env path op width height percent
    let r := run env bc.1
    (Except.ok (r.1.1, path, r.1.2), bc.2 ++ r.2)
  else if mode = "styled" then
    let title := title_from_filename path
    let bs := build_styled_cmd env path op width height canvas_h font logo title
    let r := run env bs.1.1
    (Except.ok (r.1.1, path, r.1.2), bs.2 ++ r.2 ++ [Effect.removeTmp bs.1.2])
  else if mode = "grid" then
    match build_grid_cmd env path op width tile with
    | (Except.error e, effs) => (Except.error e, effs)
    | (Except.ok cmd, effs) =>
      let r := run env cmd
      (Except.ok (r.1.1, path, r.1.2), effs ++ r.2)
  else
    (Except.ok (false, path, "unknown mode: " ++ mode), [])

/-- Outcome of one run of `main` (lines 190-238), keeping the
order-independent observables: the early "no files found" return (before any
pool is created), an abort caused by an exception re-raised from
`fut.result()` (the summary line is never printed), or normal completion with
the collected results, the success count and the error count.  The pool size
`max(1, jobs)` from line 218 is recorded on the constructors whose run
creates the pool. -/
inductive RunOutcome where
  | noFiles
  | aborted (pool : Int) (e : String)
  | completed (pool : Int) (results : List (Bool × String × String))
      (succ errs : Nat)
deriving DecidableEq, Repr

/-- Models the `as_completed`/`fut.result()` loop (lines 227-236): the first
stored exception re-raises and aborts the collection; otherwise all results
are collected. -/
def collectResults :
    List (Except String (Bool × String × String)) →
    Except String (List (Bool × String × String))
  | [] => Except.ok []
  | Except.error e :: _ => Except.error e
  | Except.ok r :: rest => (collectResults rest).map (fun rs => r :: rs)

/-- Number of failed results, as counted by the `errors` counter in `main`. -/
def errCount (results : List (Bool × String × String)) : Nat :=
  (results.filter (fun r => !r.1)).length

/-- Embeds the job-running part of `main` (lines 198-238): return early when
no video was discovered; otherwise submit one `process_one` job per file to a
pool of size `max(1, jobs)` and collect the results, aborting if any job
stored an exception; on completion the summary counters are
`len(files) - errors` and `errors`. -/
def main_run (env : Env) (files : List String) (outdir mode : String)
    (width height : Int) (percent : ℚ) (canvas_h : Int) (font : String)
    (logo : Option String) (tile : String) (jobs : Int) : RunOutcome :=
  if files.isEmpty then RunOutcome.noFiles
  else
    match collectResults (files.map (fun f =>
        (process_one env f outdir mode width height percent canvas_h font logo tile).1)) with
    | Except.error e => RunOutcome.aborted (max 1 jobs) e
    | Except.ok results =>
      RunOutcome.completed (max 1 jobs) results
        (files.length - errCount results) (errCount results)

/-- Environment in which no output file exists yet, every probe fails and
every launched process succeeds. -/
def envNoOut : Env :=
  { probeRaw := fun _ => none
    pathExists := fun _ => false
    runExit := fun _ => Except.ok 0
    tmpName := "/tmp/title0.txt" }

/-- Environment in which every output path already exists. -/
def envAllOut : Env := { envNoOut with pathExists := fun _ => true }

/-- Environment whose probe reports a duration of 10 seconds. -/
def envDur10 : Env := { envNoOut with probeRaw := fun _ => some 10 }

/-- Environment in which every launched process exits with status 2. -/
def envExit2 : Env := { envNoOut with runExit := fun _ => Except.ok 2 }

/-- Environment in which launching a process raises. -/
def envLaunchFail : Env :=
  { envNoOut with runExit := fun _ => Except.error "ffmpeg not found" }

/-- Directory listing used to instantiate the discovery theorem. -/
def entries0 : List DirEntry :=
  [⟨"b.mov", true⟩, ⟨"a.mp4", true⟩, ⟨"note.txt", true⟩, ⟨"sub", false⟩]

/-- The probe's result is never negative, whatever the raw outcome. -/
theorem ffprobe_nonneg (env : Env) (path : String) :
    0 ≤ (ffprobe_duration env path).1 := by
  rcases h : env.probeRaw path with _ | x
  · simp [ffprobe_duration, h]
  · simp only [ffprobe_duration, h]
    exact le_max_left 0 x

/-- A valid tile spec only parses with positive dimensions, because of the
`assert cols > 0 and rows > 0` in the source. -/
theorem parse_tile_pos {tile : String} {cols rows : Int}
    (h : parse_tile tile = some (cols, rows)) : 0 < cols ∧ 0 < rows := by
  unfold parse_tile at h
  repeat' split at h
  all_goals simp_all

/-- An already-existing output path makes `process_one` return the skip
result, whatever the mode, with no external effect. -/
theorem process_one_skip_helper (env : Env) (path outdir mode : String)
    (width height : Int) (percent : ℚ) (canvas_h : Int) (font : String)
    (logo : Option String) (tile : String)
    (h : env.pathExists (out_path path outdir mode) = true) :
    process_one env path outdir mode width height percent canvas_h font logo tile
      = (Except.ok (true, path, "skip (exists)"), []) := by
  unfold process_one
  simp [h]

/-- Collecting a list of stored job outcomes with no stored exception yields
exactly one result per job. -/
theorem collect_ok (l : List (Except String (Bool × String × String)))
    (H : ∀ x ∈ l, ∃ r, x = Except.ok r) :
    ∃ rs, collectResults l = Except.ok rs ∧ rs.length = l.length := by
  induction l with
  | nil => exact ⟨[], rfl, rfl⟩
  | cons a t ih =>
    obtain ⟨r, hr⟩ := H a (List.mem_cons_self a t)
    obtain ⟨rs, hrs, hlen⟩ := ih (fun x hx => H x (List.mem_cons_of_mem a hx))
    subst hr
    refine ⟨r :: rs, ?_, by simp [hlen]⟩
    show (collectResults t).map (fun rs => r :: rs) = Except.ok (r :: rs)
    rw [hrs]
    rfl

/-- C1: the claim requires a malformed grid tile spec to be caught and
reported as the failure result of that one job only, never aborting the
run.  The code does not do this: `build_grid_cmd`'s `ValueError` is not
caught on the grid branch of `process_one`, so it escapes the job
(`Except.error`, not a per-job failure result), and `fut.result()` re-raises
it in `main`, aborting the run before the summary line — here evaluated on a
two-file run with tile spec `"0x3"` and no pre-existing outputs. -/
theorem grid_invalid_tile_aborts_run :
    (process_one envNoOut "/in/clip.mkv" "/out" "grid" 1280 (-2) (3/10) 720
        DEFAULT_FONT_MAC none "0x3").1
      = Except.error ("Неверный --tile: 0x3") ∧
    main_run envNoOut ["/in/a.mkv", "/in/clip.mkv"] "/out" "grid" 1280 (-2) (3/10)
        720 DEFAULT_FONT_MAC none "0x3" 2
      = RunOutcome.aborted 2 ("Неверный --tile: 0x3") :=
  ⟨rfl, rfl⟩

/-- C2: for every valid `colsxrows` tile spec the grid builder emits the
command with `total = cols * rows` requested frames, cell width
`max 1 (width // cols)` and sampling rate `1` when the probed duration is
`≤ 0`, else `max 1 ⌈total / duration⌉`, which is never below `1`; a spec
that does not parse is rejected with the `ValueError` message and an empty
effect list, hence before any external call. -/
theorem grid_cmd_spec (env : Env) (inp out : String) (width : Int) (tile : String) :
    (∀ cols rows, parse_tile tile = some (cols, rows) →
      0 < cols ∧ 0 < rows ∧
      (build_grid_cmd env inp out width tile).1 = Except.ok
        ["ffmpeg", "-y", "-v", "error", "-i", inp,
         "-vf", "fps=" ++ toString (if (ffprobe_duration env inp).1 ≤ 0 then 1
                    else max 1 ⌈((cols * rows : Int) : ℚ) / (ffprobe_duration env inp).1⌉) ++
                ",scale=" ++ toString (max 1 (Int.fdiv width cols)) ++
                ":-2,tile=" ++ toString cols ++ "x" ++ toString rows,
         "-frames:v", toString (cols * rows), out] ∧
      (1 : Int) ≤ (if (ffprobe_duration env inp).1 ≤ 0 then 1
                    else max 1 ⌈((cols * rows : Int) : ℚ) / (ffprobe_duration env inp).1⌉)) ∧
    (parse_tile tile = none →
      build_grid_cmd env inp out width tile
        = (Except.error ("Неверный --tile: " ++ tile), [])) := by
  constructor
  · intro cols rows h
    obtain ⟨hc, hr⟩ := parse_tile_pos h
    refine ⟨hc, hr, ?_, ?_⟩
    · unfold build_grid_cmd
      rw [h]
    · split
      · exact le_refl 1
      · exact le_max_left 1 _
  · intro h
    unfold build_grid_cmd
    rw [h]

/-- C2 witness: the spec's own scenario — tile `"2x2"`, probed duration 10 —
gives `total = 4`, cell width `640` and rate `1`. -/
theorem grid_cmd_spec_witness :
    parse_tile "2x2" = some (2, 2) ∧
    (0 < (2 : Int) ∧ 0 < (2 : Int) ∧
      (build_grid_cmd envDur10 "/in/a.mp4" "/out/a_grid.jpg" 1280 "2x2").1
        = Except.ok
          ["ffmpeg", "-y", "-v", "error", "-i", "/in/a.mp4",
           "-vf", "fps=" ++ toString (if (ffprobe_duration envDur10 "/in/a.mp4").1 ≤ 0 then 1
                      else max 1 ⌈((2 * 2 : Int) : ℚ) / (ffprobe_duration envDur10 "/in/a.mp4").1⌉) ++
                  ",scale=" ++ toString (max 1 (Int.fdiv 1280 2)) ++
                  ":-2,tile=" ++ toString (2 : Int) ++ "x" ++ toString (2 : Int),
           "-frames:v", toString (2 * 2 : Int), "/out/a_grid.jpg"] ∧
      (1 : Int) ≤ (if (ffprobe_duration envDur10 "/in/a.mp4").1 ≤ 0 then 1
                    else max 1 ⌈((2 * 2 : Int) : ℚ) / (ffprobe_duration envDur10 "/in/a.mp4").1⌉)) :=
  ⟨rfl, (grid_cmd_spec envDur10 "/in/a.mp4" "/out/a_grid.jpg" 1280 "2x2").1 2 2 rfl⟩
/-- C3: the seek timestamp placed in the middle-mode command is `0` when the
probe reports `0` (unknown) and `max 0 (duration * percent)` otherwise, for
every input and every percent value. -/
theorem middle_seek_timestamp (env : Env) (inp out : String) (width height : Int)
    (percent : ℚ) :
    (build_middle_cmd env inp out width height percent).1
      = ["ffmpeg", "-y", "-v", "error", "-ss",
         fmt3 (if (ffprobe_duration env inp).1 = 0 then 0
               else max 0 ((ffprobe_duration env inp).1 * percent)),
         "-i", inp, "-frames:v", "1",
         "-vf", "scale=" ++ toString width ++ ":" ++ toString height, out] := by
  have h0 : 0 ≤ (ffprobe_duration env inp).1 := ffprobe_nonneg env inp
  have hts : (if (ffprobe_duration env inp).1 > 0
        then max 0 ((ffprobe_duration env inp).1 * percent) else 0)
      = (if (ffprobe_duration env inp).1 = 0 then 0
        else max 0 ((ffprobe_duration env inp).1 * percent)) := by
    rcases eq_or_lt_of_le h0 with h | h
    · rw [if_neg (by rw [← h]; exact lt_irrefl 0), if_pos h.symm]
    · rw [if_pos h, if_neg h.ne']
  show ["ffmpeg", "-y", "-v", "error", "-ss",
      fmt3 (if (ffprobe_duration env inp).1 > 0
            then max 0 ((ffprobe_duration env inp).1 * percent) else 0),
      "-i", inp, "-frames:v", "1",
      "-vf", "scale=" ++ toString width ++ ":" ++ toString height, out] = _
  rw [hts]

/-- C4: the duration probe is total — it returns `0` on every failure path
and the parsed value clamped to be non-negative on success, so callers never
see an error from it. -/
theorem probe_never_fails (env : Env) (path : String) :
    0 ≤ (ffprobe_duration env path).1 ∧
    (env.probeRaw path = none → (ffprobe_duration env path).1 = 0) ∧
    (∀ x, env.probeRaw path = some x → (ffprobe_duration env path).1 = max 0 x) := by
  refine ⟨ffprobe_nonneg env path, ?_, ?_⟩
  · intro h
    simp [ffprobe_duration, h]
  · intro x h
    simp [ffprobe_duration, h]

/-- C4 witness: in an environment where every probe attempt fails, the probe
returns `0` rather than an error. -/
theorem probe_never_fails_witness :
    (0 : ℚ) ≤ (ffprobe_duration envNoOut "/in/a.mp4").1 ∧
    (ffprobe_duration envNoOut "/in/a.mp4").1 = 0 :=
  ⟨(probe_never_fails envNoOut "/in/a.mp4").1,
   (probe_never_fails envNoOut "/in/a.mp4").2.1 rfl⟩

/-- C5: the job runner succeeds exactly when the process exits with status
`0`; a non-zero exit yields a failure whose diagnostic carries the exit code
and the space-joined command line; an exception constructing or launching
the process yields the `Error:` failure shape; the only external effect is
the one execution, and the runner's total type lets no exception escape. -/
theorem run_result_spec (env : Env) (cmd : List String) :
    ((run env cmd).1.1 = true ↔ env.runExit cmd = Except.ok 0) ∧
    (∀ c, env.runExit cmd = Except.ok c → c ≠ 0 →
      (run env cmd).1 = (false,
        "Command failed (" ++ toString c ++ "): " ++ String.intercalate " " cmd)) ∧
    (∀ e, env.runExit cmd = Except.error e →
      (run env cmd).1 = (false, "Error: " ++ e)) ∧
    (run env cmd).2 = [Effect.exec cmd] := by
  refine ⟨?_, ?_, ?_, rfl⟩
  · rcases h : env.runExit cmd with e | c
    · simp [run, h]
    · by_cases hc : c = 0
      · subst hc
        simp [run, h]
      · simp [run, h, hc]
  · intro c hc hne
    simp [run, hc, hne]
  · intro e he
    simp [run, he]

/-- C5 witness: a process exiting with status 2 produces the failure result
with the exit code and the full command line in the diagnostic. -/
theorem run_result_spec_witness :
    (run envExit2 ["ffmpeg", "-y"]).1
      = (false, "Command failed (" ++ toString (2 : Int) ++ "): "
          ++ String.intercalate " " ["ffmpeg", "-y"]) :=
  (run_result_spec envExit2 ["ffmpeg", "-y"]).2.1 2 rfl (by decide)

/-- C6: whenever the derived output path already exists, `process_one`
returns immediate success with the skip diagnostic and performs no external
call and no filesystem write (empty effect list), for every mode and every
input — the check never looks at the input file's content. -/
theorem skip_if_exists (env : Env) (path outdir mode : String)
    (width height : Int) (percent : ℚ) (canvas_h : Int) (font : String)
    (logo : Option String) (tile : String)
    (h : env.pathExists (out_path path outdir mode) = true) :
    process_one env path outdir mode width height percent canvas_h font logo tile
      = (Except.ok (true, path, "skip (exists)"), []) :=
  process_one_skip_helper env path outdir mode width height percent canvas_h font
    logo tile h

/-- C6 witness: with `a.jpg` already present, the smart-mode job for
`a.mp4` reports the skip success and performs no effect. -/
theorem skip_if_exists_witness :
    envAllOut.pathExists (out_path "/in/a.mp4" "/out" "smart") = true ∧
    process_one envAllOut "/in/a.mp4" "/out" "smart" 1280 (-2) (3/10) 720
        DEFAULT_FONT_MAC none "3x3"
      = (Except.ok (true, "/in/a.mp4", "skip (exists)"), []) :=
  ⟨rfl, skip_if_exists envAllOut "/in/a.mp4" "/out" "smart" 1280 (-2) (3/10) 720
    DEFAULT_FONT_MAC none "3x3" rfl⟩

/-- C7: a name is discovered exactly when some directory entry carries it, is
a regular file, and has a recognized extension after lowercasing; the listing
is a permutation of that filter (no recursion — only the given entries are
consulted) and is sorted by name. -/
theorem list_videos_spec (entries : List DirEntry) :
    (list_videos entries).Sorted (fun a b => a ≤ b) ∧
    (list_videos entries).Perm
      ((entries.filter (fun p =>
          p.isFile && decide (strLower (pySuffix p.name) ∈ VIDEO_EXTS))).map
        DirEntry.name) ∧
    (∀ n, n ∈ list_videos entries ↔
      ∃ e, e ∈ entries ∧ e.isFile = true ∧
        strLower (pySuffix e.name) ∈ VIDEO_EXTS ∧ n = e.name) := by
  refine ⟨List.sorted_insertionSort _ _, List.perm_insertionSort _ _, ?_⟩
  intro n
  unfold list_videos
  rw [List.Perm.mem_iff (List.perm_insertionSort _ _)]
  simp only [List.mem_map, List.mem_filter, Bool.and_eq_true, decide_eq_true_eq]
  constructor
  · rintro ⟨e, ⟨he, hf, hs⟩, hn⟩
    exact ⟨e, he, hf, hs, hn.symm⟩
  · rintro ⟨e, he, hf, hs, hn⟩
    exact ⟨e, ⟨he, hf, hs⟩, hn.symm⟩

/-- C7 witness: the spec's scenario — `a.mp4` and `b.mov` are discovered in
sorted order, `note.txt` and the subdirectory `sub` are not. -/
theorem list_videos_spec_witness :
    (list_videos entries0).Sorted (fun a b => a ≤ b) ∧
    (list_videos entries0).Perm
      ((entries0.filter (fun p =>
          p.isFile && decide (strLower (pySuffix p.name) ∈ VIDEO_EXTS))).map
        DirEntry.name) ∧
    (∀ n, n ∈ list_videos entries0 ↔
      ∃ e, e ∈ entries0 ∧ e.isFile = true ∧
        strLower (pySuffix e.name) ∈ VIDEO_EXTS ∧ n = e.name) :=
  list_videos_spec entries0

/-- C8: on the styled branch every temporary title file that is written is
also removed — the effect trace of the job contains a `removeTmp` for the
name of every `writeTmp` it contains, on the skip path (no write at all) and
on the execution path alike; the runner itself cannot throw past the
`try/finally`, so no temporary title file survives the job. -/
theorem styled_tmpfile_deleted (env : Env) (path outdir : String)
    (width height : Int) (percent : ℚ) (canvas_h : Int) (font : String)
    (logo : Option String) (tile : String) :
    ∀ n content,
      Effect.writeTmp n content
          ∈ (process_one env path outdir "styled" width height percent canvas_h
              font logo tile).2 →
      Effect.removeTmp n
          ∈ (process_one env path outdir "styled" width height percent canvas_h
              font logo tile).2 := by
  intro n content hmem
  by_cases h : env.pathExists (out_path path outdir "styled") = true
  · rw [process_one_skip_helper env path outdir "styled" width height percent
      canvas_h font logo tile h] at hmem
    simp at hmem
  · have hb : env.pathExists (out_path path outdir "styled") = false := by
      cases hx : env.pathExists (out_path path outdir "styled")
      · rfl
      · exact absurd hx h
    have he : (process_one env path outdir "styled" width height percent canvas_h
          font logo tile).2
        = [Effect.writeTmp env.tmpName (title_from_filename path),
           Effect.exec (build_styled_cmd env path (out_path path outdir "styled")
              width height canvas_h font logo (title_from_filename path)).1.1,
           Effect.removeTmp env.tmpName] := by
      simp only [process_one]
      rw [hb]
      rfl
    rw [he] at hmem ⊢
    simp only [List.mem_cons, List.not_mem_nil, or_false] at hmem ⊢
    rcases hmem with h1 | h1 | h1
    · cases h1
      exact Or.inr (Or.inr rfl)
    · exact absurd h1 (by simp)
    · exact absurd h1 (by simp)

/-- C8 witness: a concrete styled job writes its title file and the same
trace removes it. -/
theorem styled_tmpfile_deleted_witness :
    Effect.writeTmp "/tmp/title0.txt" "clip one"
        ∈ (process_one envNoOut "/in/clip_one.mkv" "/out" "styled" 1280 (-2)
            (3/10) 720 DEFAULT_FONT_MAC none "3x3").2 ∧
    Effect.removeTmp "/tmp/title0.txt"
        ∈ (process_one envNoOut "/in/clip_one.mkv" "/out" "styled" 1280 (-2)
            (3/10) 720 DEFAULT_FONT_MAC none "3x3").2 :=
  ⟨by decide,
   styled_tmpfile_deleted envNoOut "/in/clip_one.mkv" "/out" 1280 (-2) (3/10) 720
     DEFAULT_FONT_MAC none "3x3" "/tmp/title0.txt" "clip one" (by decide)⟩

/-- C9 counterexample: the claim, as stated, promises exactly N tagged
results for every run, but a one-file grid run with the malformed tile spec
`"junk"` and no existing output aborts (the stored `ValueError` re-raises at
`fut.result()`), producing no tagged result at all instead of one. -/
theorem scheduler_drop_counterexample :
    main_run envNoOut ["/in/clip.mkv"] "/out" "grid" 1280 (-2) (3/10) 720
        DEFAULT_FONT_MAC none "junk" 1
      = RunOutcome.aborted 1 ("Неверный --tile: junk") :=
  rfl

/-- C9 (amended): provided every submitted job returns a tagged result rather
than raising an uncaught exception, a run over N discovered videos with job
count W produces exactly N results, each tagged success or failure, none
dropped; N = 0 ends the run at the no-files message with no pool created,
and the effective pool size `max 1 W` is at least 1. -/
theorem scheduler_exact_results (env : Env) (files : List String)
    (outdir mode : String) (width height : Int) (percent : ℚ) (canvas_h : Int)
    (font : String) (logo : Option String) (tile : String) (jobs : Int)
    (H : ∀ f ∈ files, ∃ r,
      (process_one env f outdir mode width height percent canvas_h font logo
        tile).1 = Except.ok r) :
    (files = [] →
      main_run env files outdir mode width height percent canvas_h font logo
        tile jobs = RunOutcome.noFiles) ∧
    (files ≠ [] → ∃ results,
      main_run env files outdir mode width height percent canvas_h font logo
          tile jobs
        = RunOutcome.completed (max 1 jobs) results
            (files.length - errCount results) (errCount results) ∧
      results.length = files.length) ∧
    1 ≤ max 1 jobs := by
  refine ⟨?_, ?_, le_max_left 1 jobs⟩
  · intro h
    subst h
    rfl
  · intro hne
    obtain ⟨rs, hrs, hlen⟩ := collect_ok
      (files.map (fun f =>
        (process_one env f outdir mode width height percent canvas_h font logo
          tile).1))
      (by
        intro x hx
        rw [List.mem_map] at hx
        obtain ⟨f, hf, hfx⟩ := hx
        obtain ⟨r, hr⟩ := H f hf
        exact ⟨r, hfx ▸ hr⟩)
    refine ⟨rs, ?_, by rw [hlen, List.length_map]⟩
    unfold main_run
    rw [if_neg (by simpa using hne), hrs]

/-- C9 witness: a two-file smart-mode run in which every process succeeds
produces exactly two tagged results. -/
theorem scheduler_exact_results_witness :
    (∀ f ∈ (["/in/a.mp4", "/in/b.mov"] : List String), ∃ r,
      (process_one envNoOut f "/out" "smart" 1280 (-2) (3/10) 720
        DEFAULT_FONT_MAC none "3x3").1 = Except.ok r) ∧
    ((((["/in/a.mp4", "/in/b.mov"] : List String) = []) →
      main_run envNoOut ["/in/a.mp4", "/in/b.mov"] "/out" "smart" 1280 (-2)
        (3/10) 720 DEFAULT_FONT_MAC none "3x3" 4 = RunOutcome.noFiles) ∧
    ((["/in/a.mp4", "/in/b.mov"] : List String) ≠ [] → ∃ results,
      main_run envNoOut ["/in/a.mp4", "/in/b.mov"] "/out" "smart" 1280 (-2)
          (3/10) 720 DEFAULT_FONT_MAC none "3x3" 4
        = RunOutcome.completed (max 1 4) results
            ((["/in/a.mp4", "/in/b.mov"] : List String).length - errCount results)
            (errCount results) ∧
      results.length = (["/in/a.mp4", "/in/b.mov"] : List String).length) ∧
    1 ≤ max 1 (4 : Int)) := by
  have H : ∀ f ∈ (["/in/a.mp4", "/in/b.mov"] : List String), ∃ r,
      (process_one envNoOut f "/out" "smart" 1280 (-2) (3/10) 720
        DEFAULT_FONT_MAC none "3x3").1 = Except.ok r := by
    intro f hf
    simp only [List.mem_cons, List.not_mem_nil, or_false] at hf
    rcases hf with rfl | rfl
    · exact ⟨(true, "/in/a.mp4", ""), rfl⟩
    · exact ⟨(true, "/in/b.mov", ""), rfl⟩
  exact ⟨H, scheduler_exact_results envNoOut ["/in/a.mp4", "/in/b.mov"] "/out"
    "smart" 1280 (-2) (3/10) 720 DEFAULT_FONT_MAC none "3x3" 4 H⟩

/-- C10: the skip check runs before mode dispatch and before tile validation
— a grid job whose tile spec does not even parse still returns the skip
success with no effect when its output path already exists. -/
theorem skip_preempts_grid_validation (env : Env) (path outdir : String)
    (width height : Int) (percent : ℚ) (canvas_h : Int) (font : String)
    (logo : Option String) (tile : String)
    (hbad : parse_tile tile = none)
    (h : env.pathExists (out_path path outdir "grid") = true) :
    process_one env path outdir "grid" width height percent canvas_h font logo
        tile
      = (Except.ok (true, path, "skip (exists)"), []) :=
  process_one_skip_helper env path outdir "grid" width height percent canvas_h
    font logo tile h

/-- C10 witness: output `/out/c_grid.jpg` exists, the tile spec is the
unparsable `"junk"`, and the job still reports the skip success with no
probe, no validation error and no execution. -/
theorem skip_preempts_grid_validation_witness :
    parse_tile "junk" = none ∧
    envAllOut.pathExists (out_path "/in/c.avi" "/out" "grid") = true ∧
    process_one envAllOut "/in/c.avi" "/out" "grid" 1280 (-2) (3/10) 720
        DEFAULT_FONT_MAC none "junk"
      = (Except.ok (true, "/in/c.avi", "skip (exists)"), []) :=
  ⟨rfl, rfl, skip_preempts_grid_validation envAllOut "/in/c.avi" "/out" 1280 (-2)
    (3/10) 720 DEFAULT_FONT_MAC none "junk" rfl rfl⟩

end MakeThumbs
